import Mathlib

/-!
Verification of the ArchiveNET bootstrap layer (ArchveNET-api).

Shallow embedding of the startup/bootstrap core:
  * `src/config/redis.ts`   — `initializeRedis` (long-lived cache connection)
  * `src/utils/helper.ts`   — `checkArLocalRunning`, `validateWalletAddress`,
                              `checkRedisConnectivity` (memoized health probe)
  * `src/config/arweave.ts` — `initializeArweave` (environment resolver and
                              identity loader)

External effects (the Redis client constructor, `ping`, `fetch`, the file
system, JSON parse/stringify, key generation and address derivation) are
passed in as explicit oracle values/functions; `process.env` is an explicit
`Env` record; the module-level mutable health-check cache is explicit state.
Console output is modeled as a list of structured log entries carrying
exactly the dynamic data the corresponding `console.*` line interpolates.
-/

/-- JavaScript truthiness of an optional environment-variable string:
`undefined` and the empty string are falsy, every other string is truthy.
Used for `!process.env.REDIS_URL` and for
`process.env.SERVICE_WALLET_ADDRESS && process.env.ARWEAVE_WALLET_PATH`. -/
def envTruthy : Option String → Bool
  | none => false
  | some s => !(s == "")

/-- Opaque handle standing for an `ioredis` `Redis` client instance. -/
structure Redis where
  id : Nat
deriving DecidableEq, Repr

/-- Result of `initializeRedis` (src/config/redis.ts): the returned value
plus a trace of which external effects were attempted.  `constructed` is
true when `new Redis(url, …)` was executed, `pingAttempted` when
`redis.ping()` was executed. -/
structure RedisInit where
  handle : Option Redis
  constructed : Bool
  pingAttempted : Bool
deriving DecidableEq, Repr

/-- Embedding of `initializeRedis` from `src/config/redis.ts` (the version
imported by `src/config/arweave.ts`).

Oracles: `construct` is the outcome of `new Redis(process.env.REDIS_URL, …)`
(`none` means the constructor threw), `pingOk` the outcome of
`await redis.ping()` (`false` means it threw/rejected).

Control flow of the source: if `REDIS_URL` is falsy, return `undefined`
without constructing anything.  Otherwise run the try block: assign the
local variable `redis`, register the ready/error handlers, ping.  On
success return `redis`.  The catch block logs a warning and executes
`return redis;` — it returns the current value of the local variable
`redis`, which is `undefined` only when the constructor itself threw; when
the ping threw after a successful construction, the catch returns the
constructed handle. -/
def initializeRedisConfig (redisUrl : Option String) (construct : Option Redis)
    (pingOk : Bool) : RedisInit :=
  if envTruthy redisUrl then
    match construct with
    | none => ⟨none, true, false⟩
    | some r =>
      if pingOk then
        ⟨some r, true, true⟩
      else
        ⟨some r, true, true⟩
  else
    ⟨none, false, false⟩

/-- Embedding of the older `initializeRedis` that lives in the bundled
earlier revision of `src/utils/helper.ts`.  Identical to
`initializeRedisConfig` except that its catch block executes
`return undefined;`, so a ping failure yields no handle. -/
def initializeRedisHelper (redisUrl : Option String) (construct : Option Redis)
    (pingOk : Bool) : RedisInit :=
  if envTruthy redisUrl then
    match construct with
    | none => ⟨none, true, false⟩
    | some r =>
      if pingOk then
        ⟨some r, true, true⟩
      else
        ⟨none, true, true⟩
  else
    ⟨none, false, false⟩

/-- Events delivered to the long-lived connection's registered callbacks:
`redis.on("ready", …)` and `redis.on("error", …)`. -/
inductive REvent where
  | ready
  | error
deriving DecidableEq, Repr

/-- One step of the event handlers registered in `initializeRedis`
(src/config/redis.ts lines 33–47) on the `hasLoggedDisconnection` flag.
Returns the new flag value and the number of warnings logged by this event
(the `console.warn` in the error handler).  The ready handler logs an info
line and resets the flag; the error handler warns only when the flag is
still false, then sets it. -/
def redisEventStep (hasLoggedDisconnection : Bool) : REvent → Bool × Nat
  | .ready => (false, 0)
  | .error =>
    if hasLoggedDisconnection then
      (hasLoggedDisconnection, 0)
    else
      (true, 1)

/-- Total number of warnings logged by the error handler over a sequence of
ready/error events, starting from a given `hasLoggedDisconnection` flag
(the source initializes it to `false`). -/
def redisWarnCount (flag : Bool) : List REvent → Nat
  | [] => 0
  | e :: rest =>
    let (flag2, w) := redisEventStep flag e
    w + redisWarnCount flag2 rest

/-- Count of maximal runs of consecutive `error` events, phrased from the
claim's words: an `error` event starts a run (and should log exactly one
warning) precisely when the previous event was not an `error` — that is,
at startup (`prev = none`) or right after a `ready`. -/
def maximalErrorRuns (prev : Option REvent) : List REvent → Nat
  | [] => 0
  | .ready :: rest => maximalErrorRuns (some .ready) rest
  | .error :: rest =>
    (if prev = some .error then 0 else 1) + maximalErrorRuns (some .error) rest

lemma redisWarnCount_eq_runsAux (es : List REvent) :
    ∀ prev : Option REvent,
      redisWarnCount (decide (prev = some REvent.error)) es = maximalErrorRuns prev es := by
  induction es with
  | nil => intro prev; rfl
  | cons e rest ih =>
    intro prev
    cases e with
    | ready =>
      have h := ih (some .ready)
      simp [redisWarnCount, redisEventStep, maximalErrorRuns] at h ⊢
      exact h
    | error =>
      have h := ih (some .error)
      by_cases hp : prev = some REvent.error
      · simp [redisWarnCount, redisEventStep, maximalErrorRuns, hp] at h ⊢
        exact h
      · simp [redisWarnCount, redisEventStep, maximalErrorRuns, hp] at h ⊢
        exact h

/-- Claim C9: for every sequence of ready and error events delivered to the
long-lived cache connection's callbacks, the number of warnings logged
equals the number of maximal runs of consecutive error events: the first
error after startup or after a ready event logs a warning, further errors
before the next ready log nothing, and a ready event resets the
suppression flag. -/
theorem c9_one_warning_per_error_run (es : List REvent) :
    redisWarnCount false es = maximalErrorRuns none es := by
  have h := redisWarnCount_eq_runsAux es none
  simpa using h

/-- Claim C3 (code bug exhibit): in `src/config/redis.ts`, when the Redis
client is constructed successfully but the initial `ping()` fails, the
catch block's `return redis;` returns the constructed handle — not
`undefined` as the function's own doc comment ("Redis instance if
connection successful, undefined otherwise") and its log line ("proceeding
without caching") state. -/
theorem c3_ping_failure_returns_handle_not_none :
    (initializeRedisConfig (some "redis-url") (some ⟨0⟩) false).handle = some ⟨0⟩ := by
  rfl

/-- Outcome of racing `testRedis.ping()` against the 2000 ms timeout promise
in `checkRedisConnectivity`: the ping wins and resolves (`ok`), the ping
wins and rejects (`err`), or the timeout fires first (`timeout`). -/
inductive ProbeOutcome where
  | ok
  | err
  | timeout
deriving DecidableEq, Repr

/-- The snapshot value built by `checkRedisConnectivity`
(`{configured, connected, status, details}`); `details` is set in every
branch of the source. -/
structure HealthResult where
  configured : Bool
  connected : Bool
  status : String
  details : String
deriving DecidableEq, Repr

/-- The module-level `healthCheckCache` slot: a snapshot plus the
`Date.now()` millisecond timestamp at which it was stored. -/
structure HealthCache where
  result : HealthResult
  timestamp : Nat
deriving DecidableEq, Repr

/-- Return value of one call to `checkRedisConnectivity` plus the updated
cache slot and an effect trace: `constructed` records whether
`new Redis(redisUrl)` ran, `pinged` whether a `ping()` was issued, and
`disconnected` whether `testRedis.disconnect()` ran. -/
structure HealthOut where
  result : HealthResult
  cache : Option HealthCache
  constructed : Bool
  pinged : Bool
  disconnected : Bool
deriving DecidableEq, Repr

/-- Snapshot synthesized when `REDIS_URL` is not set. -/
def notConfiguredResult : HealthResult :=
  ⟨false, false, "not configured", "REDIS_URL environment variable not set"⟩

/-- Snapshot synthesized when the probe ping succeeds. -/
def readyResult : HealthResult :=
  ⟨true, true, "ready", "Redis connection is healthy"⟩

/-- Snapshot synthesized when the probe ping fails or times out. -/
def disconnectedResult : HealthResult :=
  ⟨true, false, "disconnected", "Redis connection failed"⟩

/-- The uncached path of `checkRedisConnectivity` (current revision of
`src/utils/helper.ts`): if `REDIS_URL` is falsy, synthesize and cache the
not-configured snapshot with no network activity; otherwise construct a
temporary connection, race `ping()` against the 2 s timeout (success gives
the ready snapshot, rejection or timeout is caught and gives the
disconnected snapshot), cache the snapshot, and release the probe
connection in the `finally` block on every path. -/
def healthProbeFresh (now : Nat) (redisUrl : Option String)
    (probe : ProbeOutcome) : HealthOut :=
  if envTruthy redisUrl then
    match probe with
    | .ok => ⟨readyResult, some ⟨readyResult, now⟩, true, true, true⟩
    | .err => ⟨disconnectedResult, some ⟨disconnectedResult, now⟩, true, true, true⟩
    | .timeout => ⟨disconnectedResult, some ⟨disconnectedResult, now⟩, true, true, true⟩
  else
    ⟨notConfiguredResult, some ⟨notConfiguredResult, now⟩, false, false, false⟩

/-- Embedding of `checkRedisConnectivity` from `src/utils/helper.ts`
(current revision, with the try/finally release).  `now` is the value of
`Date.now()` for this call, `cache` the current `healthCheckCache` slot.
If a cached snapshot less than 30000 ms old exists it is returned
unchanged with no I/O; otherwise the fresh path runs. -/
def checkRedisConnectivity (now : Nat) (redisUrl : Option String)
    (probe : ProbeOutcome) (cache : Option HealthCache) : HealthOut :=
  match cache with
  | some c =>
    if now - c.timestamp < 30000 then
      ⟨c.result, some c, false, false, false⟩
    else
      healthProbeFresh now redisUrl probe
  | none => healthProbeFresh now redisUrl probe

/-- Claim C8: the health probe connection is released exactly on the
executions that construct one — every execution of
`checkRedisConnectivity` that constructs a probe connection disconnects it
(success, ping error and timeout alike), and no execution returns with the
probe left open. -/
theorem c8_probe_released_iff_constructed (now : Nat) (redisUrl : Option String)
    (probe : ProbeOutcome) (cache : Option HealthCache) :
    (checkRedisConnectivity now redisUrl probe cache).disconnected =
      (checkRedisConnectivity now redisUrl probe cache).constructed := by
  cases cache with
  | none =>
    cases probe <;>
      simp [checkRedisConnectivity, healthProbeFresh] <;>
      by_cases h : envTruthy redisUrl = true <;> simp [h]
  | some c =>
    by_cases hfresh : now - c.timestamp < 30000
    · simp [checkRedisConnectivity, hfresh]
    · cases probe <;>
        simp [checkRedisConnectivity, healthProbeFresh, hfresh] <;>
        by_cases h : envTruthy redisUrl = true <;> simp [h]

/-- No snapshot younger than 30 s is in the cache slot at the moment of the
call: the slot is empty or its entry is at least 30000 ms old. -/
def cacheStale (now : Nat) (cache : Option HealthCache) : Prop :=
  ∀ c, cache = some c → 30000 ≤ now - c.timestamp

/-- Claim C7: a call to `checkRedisConnectivity` with no configured cache
address and no fresh cached snapshot returns the
`{configured:false, connected:false}` snapshot, stores it in the cache,
and performs no network I/O: no probe connection is constructed and no
ping is issued. -/
theorem c7_unconfigured_no_io (now : Nat) (probe : ProbeOutcome)
    (cache : Option HealthCache) (hstale : cacheStale now cache) :
    checkRedisConnectivity now none probe cache =
      ⟨notConfiguredResult, some ⟨notConfiguredResult, now⟩, false, false, false⟩ := by
  cases cache with
  | none => cases probe <;> rfl
  | some c =>
    have hc := hstale c rfl
    have hlt : ¬ now - c.timestamp < 30000 := by omega
    cases probe <;> simp [checkRedisConnectivity, healthProbeFresh, hlt, envTruthy]

/-- Witness for C7 at a concrete input: empty cache slot, time 0. -/
theorem c7_witness :
    checkRedisConnectivity 0 none ProbeOutcome.ok none =
      ⟨notConfiguredResult, some ⟨notConfiguredResult, 0⟩, false, false, false⟩ :=
  c7_unconfigured_no_io 0 ProbeOutcome.ok none (by intro c h; cases h)

/-- Claim C6 counterexample: the claim as stated says every call finding a
snapshot 30 seconds old or older "performs a fresh probe".  With no cache
address configured, a stale-snapshot call recomputes and replaces the
snapshot but constructs no probe connection and issues no ping: at time
40000 ms with a snapshot stored at time 0 and `REDIS_URL` unset, the call
replaces the snapshot yet `constructed = false` and `pinged = false`. -/
theorem c6_counterexample_stale_unconfigured_no_probe :
    30000 ≤ 40000 - (0 : Nat) ∧
      checkRedisConnectivity 40000 none ProbeOutcome.ok
          (some ⟨disconnectedResult, 0⟩) =
        ⟨notConfiguredResult, some ⟨notConfiguredResult, 40000⟩, false, false, false⟩ := by
  exact ⟨by decide, rfl⟩

/-- Claim C6 as amended: (a) a call that finds a cached snapshot less than
30 seconds old returns that snapshot unchanged, leaves the cache slot
untouched, and performs no probe construction and no ping; (b) a call that
finds the snapshot 30 seconds old or older recomputes and replaces the
snapshot entirely (new value, timestamp of this call), performing a fresh
probe — construction and ping — when a cache address is configured. -/
theorem c6_amended_memoization_window (now : Nat) (redisUrl : Option String)
    (probe : ProbeOutcome) (c : HealthCache) :
    (now - c.timestamp < 30000 →
      checkRedisConnectivity now redisUrl probe (some c) =
        ⟨c.result, some c, false, false, false⟩) ∧
    (30000 ≤ now - c.timestamp →
      (checkRedisConnectivity now redisUrl probe (some c)).cache =
        some ⟨(checkRedisConnectivity now redisUrl probe (some c)).result, now⟩ ∧
      (envTruthy redisUrl = true →
        (checkRedisConnectivity now redisUrl probe (some c)).constructed = true ∧
        (checkRedisConnectivity now redisUrl probe (some c)).pinged = true)) := by
  constructor
  · intro hfresh
    simp [checkRedisConnectivity, hfresh]
  · intro hstale
    have hlt : ¬ now - c.timestamp < 30000 := by omega
    by_cases hurl : envTruthy redisUrl = true
    · cases probe <;> simp [checkRedisConnectivity, healthProbeFresh, hlt, hurl]
    · have hurl2 : envTruthy redisUrl = false := by
        cases h : envTruthy redisUrl
        · rfl
        · exact absurd h hurl
      cases probe <;> simp [checkRedisConnectivity, healthProbeFresh, hlt, hurl2]

/-- Witness for the amended C6 at concrete inputs: a fresh-snapshot call at
time 10000 over a snapshot stored at 5000 returns it unchanged with no
I/O, and a stale call at time 40000 over a snapshot stored at 5000 with a
configured address replaces the snapshot and probes. -/
theorem c6_amended_witness :
    checkRedisConnectivity 10000 (some "redis-url") ProbeOutcome.ok
        (some ⟨readyResult, 5000⟩) =
      ⟨readyResult, some ⟨readyResult, 5000⟩, false, false, false⟩ ∧
    (checkRedisConnectivity 40000 (some "redis-url") ProbeOutcome.ok
        (some ⟨readyResult, 5000⟩)).cache =
      some ⟨(checkRedisConnectivity 40000 (some "redis-url") ProbeOutcome.ok
        (some ⟨readyResult, 5000⟩)).result, 40000⟩ ∧
    (checkRedisConnectivity 40000 (some "redis-url") ProbeOutcome.ok
        (some ⟨readyResult, 5000⟩)).constructed = true := by
  refine ⟨?_, ?_, ?_⟩
  · exact (c6_amended_memoization_window 10000 (some "redis-url") ProbeOutcome.ok
      ⟨readyResult, 5000⟩).1 (by decide)
  · exact ((c6_amended_memoization_window 40000 (some "redis-url") ProbeOutcome.ok
      ⟨readyResult, 5000⟩).2 (by decide)).1
  · exact (((c6_amended_memoization_window 40000 (some "redis-url") ProbeOutcome.ok
      ⟨readyResult, 5000⟩).2 (by decide)).2 (by decide)).1

/-- One call's inputs for a sequence of `checkRedisConnectivity` calls. -/
structure HCall where
  now : Nat
  redisUrl : Option String
  probe : ProbeOutcome
deriving DecidableEq, Repr

/-- Snapshots returned by a sequence of calls to `checkRedisConnectivity`,
threading the module-level cache slot from call to call. -/
def runHealthCalls : Option HealthCache → List HCall → List HealthResult
  | _, [] => []
  | cache, c :: rest =>
    let out := checkRedisConnectivity c.now c.redisUrl c.probe cache
    out.result :: runHealthCalls out.cache rest

/-- The three admissible snapshot shapes of claim C10; each pins the two
booleans and the status string, so `connected = true` forces
`configured = true` and the status is determined by the booleans. -/
def goodSnapshot (r : HealthResult) : Prop :=
  (r.configured = false ∧ r.connected = false ∧ r.status = "not configured") ∨
  (r.configured = true ∧ r.connected = true ∧ r.status = "ready") ∨
  (r.configured = true ∧ r.connected = false ∧ r.status = "disconnected")

/-- The cache slot holds no snapshot or a well-shaped one. -/
def goodCacheSlot : Option HealthCache → Prop
  | none => True
  | some c => goodSnapshot c.result

lemma healthProbeFresh_good (now : Nat) (redisUrl : Option String)
    (probe : ProbeOutcome) :
    goodSnapshot (healthProbeFresh now redisUrl probe).result ∧
      goodCacheSlot (healthProbeFresh now redisUrl probe).cache := by
  by_cases hurl : envTruthy redisUrl = true
  · cases probe <;>
      simp [healthProbeFresh, hurl, goodSnapshot, goodCacheSlot,
        readyResult, disconnectedResult]
  · cases h : envTruthy redisUrl
    · cases probe <;>
        simp [healthProbeFresh, h, goodSnapshot, goodCacheSlot, notConfiguredResult]
    · exact absurd h hurl

lemma checkRedisConnectivity_preserves_good (now : Nat) (redisUrl : Option String)
    (probe : ProbeOutcome) (cache : Option HealthCache)
    (hg : goodCacheSlot cache) :
    goodSnapshot (checkRedisConnectivity now redisUrl probe cache).result ∧
      goodCacheSlot (checkRedisConnectivity now redisUrl probe cache).cache := by
  cases cache with
  | none => exact healthProbeFresh_good now redisUrl probe
  | some c =>
    by_cases hfresh : now - c.timestamp < 30000
    · simp only [checkRedisConnectivity, hfresh, if_pos]
      exact ⟨hg, hg⟩
    · simp only [checkRedisConnectivity, hfresh, if_neg, not_false_eq_true]
      exact healthProbeFresh_good now redisUrl probe

/-- Claim C10: every snapshot ever returned by `checkRedisConnectivity` —
freshly computed or served from the cache, over any sequence of calls
starting from the empty cache slot — has one of the three shapes
`{configured:false, connected:false, status:"not configured"}`,
`{configured:true, connected:true, status:"ready"}`,
`{configured:true, connected:false, status:"disconnected"}`. -/
theorem c10_snapshot_shapes (calls : List HCall) (r : HealthResult)
    (hr : r ∈ runHealthCalls none calls) : goodSnapshot r := by
  suffices h : ∀ calls2 (cache : Option HealthCache), goodCacheSlot cache →
      ∀ r2 ∈ runHealthCalls cache calls2, goodSnapshot r2 by
    exact h calls none trivial r hr
  intro calls2
  induction calls2 with
  | nil => intro cache _ r2 hr2; simp [runHealthCalls] at hr2
  | cons c rest ih =>
    intro cache hgc r2 hr2
    simp only [runHealthCalls, List.mem_cons] at hr2
    have hstep := checkRedisConnectivity_preserves_good c.now c.redisUrl c.probe cache hgc
    rcases hr2 with h1 | h2
    · exact h1 ▸ hstep.1
    · exact ih _ hstep.2 r2 h2

/-- Witness for C10 at a concrete call sequence: one unconfigured call at
time 0 returns the not-configured snapshot, which is well shaped. -/
theorem c10_witness : goodSnapshot notConfiguredResult :=
  c10_snapshot_shapes [⟨0, none, ProbeOutcome.ok⟩] notConfiguredResult
    (by simp [runHealthCalls, checkRedisConnectivity, healthProbeFresh, envTruthy])

/-- Opaque JWK keypair material (`JWKInterface`); the public address is
derived from it by the injected `jwkToAddress` oracle. -/
structure JWK where
  material : String
deriving DecidableEq, Repr

/-- Errors thrown along the wallet-initialization paths of
`src/config/arweave.ts` and `src/utils/helper.ts`.  `mismatch` is the error
thrown by `validateWalletAddress`; its message interpolates the expected
and the loaded address (and no other dynamic data).  `readFailed` stands
for the error thrown by `readFile`/`JSON.parse` on the production path.
`loadFailed` is the fixed-text error `initializeArweave` throws from its
production catch block; `configMissing` the fixed-text error it throws
when a required production variable is absent. -/
inductive WErr where
  | mismatch (expected loaded : String)
  | readFailed
  | loadFailed
  | configMissing
deriving DecidableEq, Repr

/-- The dynamic data interpolated into the message of each thrown error:
what the error, as received by a catcher, reports.  The mismatch message
("Wallet address mismatch. Expected … but loaded wallet has address …")
carries the two addresses; the `loadFailed` and `configMissing` messages
are fixed text carrying no addresses and no path. -/
def errReports : WErr → List String
  | .mismatch expected loaded => [expected, loaded]
  | .readFailed => []
  | .loadFailed => []
  | .configMissing => []

/-- Console output lines, modeled structurally: `plain` for fixed-text
lines, `withData` for lines interpolating one dynamic datum, `withErr` for
`console.error(msg, error)` lines that print a caught error. -/
inductive LogEntry where
  | plain (tag : String)
  | withData (tag : String) (data : String)
  | withErr (tag : String) (e : WErr)
deriving DecidableEq, Repr

/-- Embedding of `validateWalletAddress` from `src/utils/helper.ts`: derive
the wallet address via the injected `jwkToAddress`; on mismatch log four
console.error lines (the banner, the expected address, the loaded address,
and the wallet source path) and throw the mismatch error carrying both
addresses; on match return the address with no logging. -/
def validateWalletAddress (wallet : JWK) (expectedAddress walletSource : String)
    (jwkToAddress : JWK → String) : Except WErr String × List LogEntry :=
  let walletAddress := jwkToAddress wallet
  if walletAddress == expectedAddress then
    (.ok walletAddress, [])
  else
    (.error (.mismatch expectedAddress walletAddress),
     [.plain "Wallet address mismatch detected",
      .withData "Expected" expectedAddress,
      .withData "Loaded" walletAddress,
      .withData "Source" walletSource])

/-- The recognized environment variables (`process.env`); `none` is an
unset variable. -/
structure Env where
  nodeEnv : Option String
  redisUrl : Option String
  serviceWalletAddress : Option String
  arweaveWalletPath : Option String

/-- JavaScript `String.prototype.trim`: strip leading and trailing
whitespace.  Modeled directly over the character list. -/
def jsTrim (s : String) : String :=
  ⟨((s.data.dropWhile Char.isWhitespace).reverse.dropWhile Char.isWhitespace).reverse⟩

/-- Embedding of the production check
`process.env.NODE_ENV?.trim() === "production"`. -/
def isProduction (env : Env) : Bool :=
  match env.nodeEnv with
  | none => false
  | some s => jsTrim s == "production"

/-- Outcome of the `fetch` inside `checkArLocalRunning`: `none` means the
fetch threw (network error, or the 1 s abort timeout fired); `some ok`
means a response arrived with the given `response.ok`. -/
def checkArLocalRunning (fetchOutcome : Option Bool) : Bool :=
  match fetchOutcome with
  | none => false
  | some ok => ok

/-- The network the Warp instance is created for: `WarpFactory.forMainnet`,
`WarpFactory.forLocal(port)`, or `WarpFactory.forTestnet`. -/
inductive Network where
  | mainnet
  | arlocal (port : Nat)
  | testnet
deriving DecidableEq, Repr

/-- Network selection of `initializeArweave` (src/config/arweave.ts lines
71–125): production always takes mainnet; development takes ArLocal on
port 8080 when the local probe reports it running, else falls back to the
Warp testnet. -/
def selectNetwork (isProd arLocalRunning : Bool) : Network :=
  if isProd then .mainnet
  else if arLocalRunning then .arlocal 8080
  else .testnet

/-- The simple file system: a map from path to file content; `none` means
`readFile` at that path rejects. -/
def FS : Type := String → Option String

/-- Effect of `writeFile path content`. -/
def fsWrite (fs : FS) (path content : String) : FS :=
  fun q => if q = path then some content else fs q

/-- Oracles for the external effects of `initializeArweave`:
the Redis constructor and ping outcomes (for the call to `initializeRedis`),
the fetch outcome of the ArLocal probe, address derivation
(`warp.arweave.wallets.jwkToAddress`), key generation
(`warp.arweave.wallets.generate`), and JSON parse/stringify for wallet
files. -/
structure Ora where
  redisConstruct : Option Redis
  redisPingOk : Bool
  arLocalFetch : Option Bool
  jwkToAddress : JWK → String
  generate : JWK
  parseJWK : String → Option JWK
  serializeJWK : JWK → String

/-- The `ArweaveConfig` handle returned on success, together with the
configuration applied to the Warp instance while building it: which
network factory was used, whether the Redis-backed KV storage factory was
attached, and that the deploy plugin was installed. -/
structure ArweaveConfig where
  network : Network
  redisAttached : Bool
  deployPlugin : Bool
  wallet : JWK
  redis : Option Redis
deriving DecidableEq, Repr

/-- Result of one run of `initializeArweave`: the outcome (handle or thrown
error), the file system after the run, the network selected during
environment resolution (selection happens before wallet loading), and the
wallet-stage console log. -/
structure InitResult where
  outcome : Except WErr ArweaveConfig
  fs : FS
  network : Network
  logs : List LogEntry

/-- Production wallet stage of `initializeArweave` (lines 132–164): when
both `SERVICE_WALLET_ADDRESS` and `ARWEAVE_WALLET_PATH` are truthy, run
the try block — read the wallet file, parse it, validate it with
`validateWalletAddress`; any thrown error is caught, logged
(`console.error("Failed to load production wallet:", error)`), and
replaced by the fixed-text `loadFailed` error.  When either variable is
absent, throw the fixed-text `configMissing` error. -/
def loadProductionWallet (swa awp : Option String) (o : Ora) (fs : FS) :
    Except WErr JWK × List LogEntry :=
  if envTruthy swa && envTruthy awp then
    let expectedAddress := swa.getD ""
    let walletPath := awp.getD ""
    match fs walletPath with
    | none =>
      (.error .loadFailed, [.withErr "Failed to load production wallet" .readFailed])
    | some content =>
      match o.parseJWK content with
      | none =>
        (.error .loadFailed, [.withErr "Failed to load production wallet" .readFailed])
      | some wallet =>
        match validateWalletAddress wallet expectedAddress walletPath o.jwkToAddress with
        | (.error e, vlogs) =>
          (.error .loadFailed, vlogs ++ [.withErr "Failed to load production wallet" e])
        | (.ok walletAddress, vlogs) =>
          (.ok wallet,
           vlogs ++ [.plain "Production wallet loaded successfully",
                     .withData "Wallet Source" walletPath,
                     .withData "Wallet Address" walletAddress])
  else
    (.error .configMissing, [])

/-- The fixed development wallet path. -/
def devWalletPath : String := "./dev-wallet.json"

/-- Development wallet stage of `initializeArweave` (lines 165–196): try to
read and parse `./dev-wallet.json`; on any failure (missing file or
malformed JSON) the catch block generates a fresh keypair, persists it to
that path, and uses it.  This path never throws. -/
def loadDevWallet (o : Ora) (fs : FS) : JWK × FS × List LogEntry :=
  match fs devWalletPath with
  | some content =>
    match o.parseJWK content with
    | some wallet =>
      (wallet, fs,
       [.plain "Development wallet loaded from existing file",
        .withData "Wallet Source" devWalletPath,
        .withData "Wallet Address" (o.jwkToAddress wallet)])
    | none =>
      let wallet := o.generate
      (wallet, fsWrite fs devWalletPath (o.serializeJWK wallet),
       [.plain "New development wallet created and saved",
        .withData "Wallet Source" devWalletPath,
        .withData "Wallet Address" (o.jwkToAddress wallet)])
  | none =>
    let wallet := o.generate
    (wallet, fsWrite fs devWalletPath (o.serializeJWK wallet),
     [.plain "New development wallet created and saved",
      .withData "Wallet Source" devWalletPath,
      .withData "Wallet Address" (o.jwkToAddress wallet)])

/-- Embedding of `initializeArweave` from `src/config/arweave.ts`: read the
production flag, initialize Redis (never throws), select the network (in
development, after probing ArLocal; the probe itself never throws),
install the deploy plugin, then run the production or development wallet
stage; production wallet errors abort with a thrown error, the development
stage always succeeds. -/
def initializeArweave (env : Env) (o : Ora) (fs : FS) : InitResult :=
  let isProd := isProduction env
  let rinit := initializeRedisConfig env.redisUrl o.redisConstruct o.redisPingOk
  let redis := rinit.handle
  let arLocalRunning := if isProd then false else checkArLocalRunning o.arLocalFetch
  let net := selectNetwork isProd arLocalRunning
  if isProd then
    match loadProductionWallet env.serviceWalletAddress env.arweaveWalletPath o fs with
    | (.error e, logs) => ⟨.error e, fs, net, logs⟩
    | (.ok wallet, logs) =>
      ⟨.ok ⟨net, redis.isSome, true, wallet, redis⟩, fs, net, logs⟩
  else
    let (wallet, fs2, logs) := loadDevWallet o fs
    ⟨.ok ⟨net, redis.isSome, true, wallet, redis⟩, fs2, net, logs⟩

/-- The wallet carried by a successful bootstrap outcome, if any. -/
def walletOf : Except WErr ArweaveConfig → Option JWK
  | .ok cfg => some cfg.wallet
  | .error _ => none

/-- Claim C1 counterexample: in production mode with a keypair whose derived
address ("LOADED_ADDR") differs from the configured expected address
("EXPECTED_ADDR"), `initializeArweave` fails — but the error raised for
its caller is the fixed-text `loadFailed` error, whose message reports
neither the expected address, nor the derived address, nor the keypair
file path, contradicting the claim that the error raised for the caller
reports all three. -/
theorem c1_counterexample_caller_error_lacks_addresses_and_path :
    (initializeArweave
        ⟨some "production", none, some "EXPECTED_ADDR", some "wallet.json"⟩
        ⟨none, false, none, fun _ => "LOADED_ADDR", ⟨"gen"⟩,
         fun s => some ⟨s⟩, fun w => w.material⟩
        (fun p => if p = "wallet.json" then some "KEYDATA" else none)).outcome =
      Except.error WErr.loadFailed ∧
    "EXPECTED_ADDR" ∉ errReports WErr.loadFailed ∧
    "LOADED_ADDR" ∉ errReports WErr.loadFailed ∧
    "wallet.json" ∉ errReports WErr.loadFailed := by
  refine ⟨?_, by simp [errReports], by simp [errReports], by simp [errReports]⟩
  rfl

/-- Claim C1 as amended: in production mode, for every loaded keypair whose
derived address differs from the expected address, `initializeArweave`
fails and returns no handle; the mismatch error thrown by
`validateWalletAddress` reports the expected and the derived address (but
not the source path), the expected address, derived address and source
path are all reported on the console error log, and the error raised for
`initializeArweave`'s caller is the generic fixed-text load-failure
error. -/
theorem c1_amended_mismatch_diagnostics (env : Env) (o : Ora) (fs : FS)
    (expected path content : String) (w : JWK)
    (hprod : isProduction env = true)
    (hswa : env.serviceWalletAddress = some expected) (hexp : expected ≠ "")
    (hawp : env.arweaveWalletPath = some path) (hpath : path ≠ "")
    (hread : fs path = some content)
    (hparse : o.parseJWK content = some w)
    (hmm : o.jwkToAddress w ≠ expected) :
    (initializeArweave env o fs).outcome = Except.error WErr.loadFailed ∧
    errReports (WErr.mismatch expected (o.jwkToAddress w)) =
      [expected, o.jwkToAddress w] ∧
    LogEntry.withData "Expected" expected ∈ (initializeArweave env o fs).logs ∧
    LogEntry.withData "Loaded" (o.jwkToAddress w) ∈ (initializeArweave env o fs).logs ∧
    LogEntry.withData "Source" path ∈ (initializeArweave env o fs).logs ∧
    LogEntry.withErr "Failed to load production wallet"
        (WErr.mismatch expected (o.jwkToAddress w)) ∈ (initializeArweave env o fs).logs := by
  have hbeq : (o.jwkToAddress w == expected) = false := by
    simp [hmm]
  simp [initializeArweave, hprod, loadProductionWallet, hswa, hawp, envTruthy,
    hexp, hpath, hread, hparse, validateWalletAddress, hbeq, errReports]

/-- Witness for the amended C1 at a concrete mismatching input. -/
theorem c1_amended_witness :
    (initializeArweave
        ⟨some "production", none, some "EXPECTED_ADDR", some "wallet.json"⟩
        ⟨none, false, none, fun _ => "LOADED_ADDR", ⟨"gen"⟩,
         fun s => some ⟨s⟩, fun w => w.material⟩
        (fun p => if p = "wallet.json" then some "KEYDATA" else none)).outcome =
      Except.error WErr.loadFailed ∧
    LogEntry.withData "Source" "wallet.json" ∈
      (initializeArweave
        ⟨some "production", none, some "EXPECTED_ADDR", some "wallet.json"⟩
        ⟨none, false, none, fun _ => "LOADED_ADDR", ⟨"gen"⟩,
         fun s => some ⟨s⟩, fun w => w.material⟩
        (fun p => if p = "wallet.json" then some "KEYDATA" else none)).logs := by
  have h := c1_amended_mismatch_diagnostics
    ⟨some "production", none, some "EXPECTED_ADDR", some "wallet.json"⟩
    ⟨none, false, none, fun _ => "LOADED_ADDR", ⟨"gen"⟩,
     fun s => some ⟨s⟩, fun w => w.material⟩
    (fun p => if p = "wallet.json" then some "KEYDATA" else none)
    "EXPECTED_ADDR" "wallet.json" "KEYDATA" ⟨"KEYDATA"⟩
    (by decide) rfl (by decide) rfl (by decide) (by simp) rfl (by decide)
  exact ⟨h.1, h.2.2.2.2.1⟩

/-- Claim C2: in production mode, if either required configuration value is
absent, `initializeArweave` fails with the configuration error, which is a
different error from both the generic load-failure error the caller sees
in the mismatch scenario and from the mismatch error itself, and no handle
is returned. -/
theorem c2_missing_config_distinct_error (env : Env) (o : Ora) (fs : FS)
    (hprod : isProduction env = true)
    (hmiss : env.serviceWalletAddress = none ∨ env.arweaveWalletPath = none) :
    (initializeArweave env o fs).outcome = Except.error WErr.configMissing ∧
    WErr.configMissing ≠ WErr.loadFailed ∧
    ∀ e l, WErr.configMissing ≠ WErr.mismatch e l := by
  refine ⟨?_, by simp, by intro e l h; cases h⟩
  rcases hmiss with h | h <;>
    simp [initializeArweave, hprod, loadProductionWallet, h, envTruthy]

/-- Witness for C2 with both variables absent in production mode. -/
theorem c2_witness :
    (initializeArweave ⟨some "production", none, none, none⟩
        ⟨none, false, none, fun _ => "A", ⟨"gen"⟩, fun s => some ⟨s⟩,
         fun w => w.material⟩
        (fun _ => none)).outcome = Except.error WErr.configMissing := by
  have h := c2_missing_config_distinct_error
    ⟨some "production", none, none, none⟩
    ⟨none, false, none, fun _ => "A", ⟨"gen"⟩, fun s => some ⟨s⟩,
     fun w => w.material⟩
    (fun _ => none) (by decide) (Or.inl rfl)
  exact h.1

/-- Claim C4: in every non-production mode with no development wallet file
present, `initializeArweave` generates a keypair and persists it to
`./dev-wallet.json`; a second run against the resulting storage loads that
persisted keypair unchanged and leaves the storage untouched (re-load is
idempotent).  The JSON round-trip hypothesis states that parsing the
serialized generated keypair gives it back. -/
theorem c4_dev_wallet_roundtrip (env : Env) (o : Ora) (fs : FS)
    (hdev : isProduction env = false)
    (hnofile : fs devWalletPath = none)
    (hrt : o.parseJWK (o.serializeJWK o.generate) = some o.generate) :
    walletOf (initializeArweave env o fs).outcome = some o.generate ∧
    (initializeArweave env o fs).fs devWalletPath =
      some (o.serializeJWK o.generate) ∧
    walletOf (initializeArweave env o ((initializeArweave env o fs).fs)).outcome =
      some o.generate ∧
    (initializeArweave env o ((initializeArweave env o fs).fs)).fs =
      (initializeArweave env o fs).fs := by
  have h1 : (initializeArweave env o fs).fs =
      fsWrite fs devWalletPath (o.serializeJWK o.generate) := by
    simp [initializeArweave, hdev, loadDevWallet, hnofile]
  have hread2 : (fsWrite fs devWalletPath (o.serializeJWK o.generate)) devWalletPath =
      some (o.serializeJWK o.generate) := by
    simp [fsWrite]
  refine ⟨?_, ?_, ?_, ?_⟩
  · simp [initializeArweave, hdev, loadDevWallet, hnofile, walletOf]
  · rw [h1]; exact hread2
  · rw [h1]
    simp [initializeArweave, hdev, loadDevWallet, hread2, hrt, walletOf]
  · rw [h1]
    simp [initializeArweave, hdev, loadDevWallet, hread2, hrt]

/-- Witness for C4 at a concrete development environment with an empty file
system and an identity JSON round-trip. -/
theorem c4_witness :
    walletOf (initializeArweave ⟨some "development", none, none, none⟩
        ⟨none, false, none, fun _ => "A", ⟨"gen"⟩, fun s => some ⟨s⟩,
         fun w => w.material⟩
        (fun _ => none)).outcome = some ⟨"gen"⟩ := by
  have h := c4_dev_wallet_roundtrip ⟨some "development", none, none, none⟩
    ⟨none, false, none, fun _ => "A", ⟨"gen"⟩, fun s => some ⟨s⟩,
     fun w => w.material⟩
    (fun _ => none) (by decide) rfl rfl
  exact h.1

/-- Claim C5: in development mode, for every outcome of the ArLocal
reachability probe, resolution selects the testnet target when the probe
reports unreachable (fetch error, abort timeout, or non-ok response) and
the local target when it reports reachable; and the probe outcome never
makes `initializeArweave` raise an error — the development run always
returns a handle. -/
theorem c5_dev_probe_fallback (env : Env) (o : Ora) (fs : FS)
    (hdev : isProduction env = false) :
    (checkArLocalRunning o.arLocalFetch = false →
      (initializeArweave env o fs).network = Network.testnet) ∧
    (checkArLocalRunning o.arLocalFetch = true →
      (initializeArweave env o fs).network = Network.arlocal 8080) ∧
    ∃ cfg, (initializeArweave env o fs).outcome = Except.ok cfg := by
  refine ⟨?_, ?_, ?_⟩
  · intro hprobe
    simp [initializeArweave, hdev, selectNetwork, hprobe, loadDevWallet]
  · intro hprobe
    simp [initializeArweave, hdev, selectNetwork, hprobe, loadDevWallet]
  · rcases hlw : loadDevWallet o fs with ⟨w, fs2, logs⟩
    refine ⟨⟨selectNetwork false (checkArLocalRunning o.arLocalFetch),
      (initializeRedisConfig env.redisUrl o.redisConstruct o.redisPingOk).handle.isSome,
      true, w,
      (initializeRedisConfig env.redisUrl o.redisConstruct o.redisPingOk).handle⟩, ?_⟩
    simp [initializeArweave, hdev, hlw]

/-- Witness for C5: unreachable probe (fetch threw) in development mode
selects the testnet and still yields a handle. -/
theorem c5_witness :
    (initializeArweave ⟨some "development", none, none, none⟩
        ⟨none, false, none, fun _ => "A", ⟨"gen"⟩, fun s => some ⟨s⟩,
         fun w => w.material⟩
        (fun _ => none)).network = Network.testnet ∧
    ∃ cfg, (initializeArweave ⟨some "development", none, none, none⟩
        ⟨none, false, none, fun _ => "A", ⟨"gen"⟩, fun s => some ⟨s⟩,
         fun w => w.material⟩
        (fun _ => none)).outcome = Except.ok cfg := by
  have h := c5_dev_probe_fallback ⟨some "development", none, none, none⟩
    ⟨none, false, none, fun _ => "A", ⟨"gen"⟩, fun s => some ⟨s⟩,
     fun w => w.material⟩
    (fun _ => none) (by decide)
  exact ⟨h.1 rfl, h.2.2⟩
